import Mathlib

/-!
Shallow embedding of the Inventra backend's stock / audit / notification
logic (Express + Mongoose controllers under `backend/src`), together with
proofs about it.

Modelling conventions:
* Mongo ObjectIds are modelled as `Nat`; a missing request-body field is
  `Option.none` (a present ObjectId string is always truthy in JS, so the
  `!productId`-style guards correspond exactly to the `none` case).
* JS numbers holding stock, price and quantities are modelled as `Int`
  (stock can go negative through writes that bypass validation, which is
  exactly what the audit engine checks for).
* Each controller takes the database state and returns the possibly
  updated state together with `Except ApiError` of its response payload;
  an early `return res.status(4xx)` is modelled as returning the state
  unchanged with an `.error`.
* `Date.now()` / `new Date()` is passed in as a `now : Nat` parameter.
* The mongoose `metadata` bag on notifications and the `timestamps`
  bookkeeping fields are not modelled; no claim mentions them.
-/

namespace Inventra

/-- Product.status enum: 'in-stock' | 'low-stock' | 'out-of-stock'. -/
inductive ProductStatus where
  | inStock
  | lowStock
  | outOfStock
deriving DecidableEq, Repr

/-- String form of a product status, as interpolated into JS messages. -/
def ProductStatus.show : ProductStatus → String
  | .inStock => "in-stock"
  | .lowStock => "low-stock"
  | .outOfStock => "out-of-stock"

/-- Product document (models/Product.js). -/
structure Product where
  id : Nat
  name : String
  sku : String
  category : String
  stock : Int
  price : Int
  lowStockThreshold : Int
  status : ProductStatus
deriving DecidableEq, Repr

/-- Transaction.type enum: 'in' | 'out'. -/
inductive TxType where
  | tIn
  | tOut
deriving DecidableEq, Repr

/-- Transaction.status enum: 'pending' | 'completed' | 'rejected'. -/
inductive TxStatus where
  | pending
  | completed
  | rejected
deriving DecidableEq, Repr

/-- Transaction document (models/Transaction.js). -/
structure Transaction where
  id : Nat
  product : Nat
  type : TxType
  quantity : Int
  reference : String
  performedBy : Nat
  previousStock : Int
  newStock : Int
  status : TxStatus
deriving DecidableEq, Repr

/-- User.role enum. -/
inductive Role where
  | admin
  | manager
  | clerk
  | auditor
deriving DecidableEq, Repr

/-- User document (external collaborator; only id and role matter here). -/
structure User where
  id : Nat
  fullName : String
  email : String
  role : Role
deriving DecidableEq, Repr

/-- Notification.type enum: 'reorder' | 'restock' | 'audit' | 'system'. -/
inductive NotificationType where
  | reorder
  | restock
  | audit
  | system
deriving DecidableEq, Repr

/-- Notification document (models/Notification.js; metadata bag omitted). -/
structure Notification where
  id : Nat
  recipient : Nat
  sender : Option Nat
  message : String
  type : NotificationType
  relatedProduct : Option Nat
  isRead : Bool
deriving DecidableEq, Repr

/-- Severity of an audit finding. -/
inductive Severity where
  | high
  | medium
  | low
deriving DecidableEq, Repr

/-- The `type` tags pushed by createNewAudit (auditor.controller.js). -/
inductive FindingType where
  | negativeStock
  | statusMismatch
  | lowStockMismatch
  | invalidPrice
deriving DecidableEq, Repr

/-- One element of a product's `discrepancies` array in an audit. -/
structure Finding where
  type : FindingType
  message : String
  severity : Severity
deriving DecidableEq, Repr

/-- One element of Audit.discrepancyDetails (per-product findings). -/
structure AuditResult where
  productId : Nat
  name : String
  sku : String
  currentStock : Int
  status : ProductStatus
  discrepancies : List Finding
deriving DecidableEq, Repr

/-- Audit.status enum: 'scheduled' | 'in-progress' | 'completed'. -/
inductive AuditStatus where
  | scheduled
  | inProgress
  | completed
deriving DecidableEq, Repr

/-- Audit document (models/Audit.js). -/
structure Audit where
  id : Nat
  title : String
  date : Nat
  status : AuditStatus
  discrepancies : Nat
  discrepancyDetails : List AuditResult
  createdBy : Nat
  notes : String
deriving DecidableEq, Repr

/-- The database state: one list per collection, plus a counter supplying
fresh ObjectIds for newly created documents. -/
structure Db where
  products : List Product
  transactions : List Transaction
  audits : List Audit
  notifications : List Notification
  users : List User
  nextId : Nat
deriving DecidableEq, Repr

/-- The 4xx error responses produced by the controllers. -/
inductive ApiError where
  | validation (msg : String)
  | notFound (msg : String)
  | insufficientStock (available requested : Int)
  | alreadyCompleted (msg : String)
  | forbidden (msg : String)
deriving DecidableEq, Repr

/-- HTTP status code attached to each error response in the controllers. -/
def ApiError.httpStatus : ApiError → Nat
  | .validation _ => 400
  | .notFound _ => 404
  | .insufficientStock _ _ => 400
  | .alreadyCompleted _ => 400
  | .forbidden _ => 403

/-- The pre('save') hook of models/Product.js, lines 54-63: recompute
`status` from `stock` and `lowStockThreshold`, overwriting whatever
status the document carried. -/
def applyPreSaveHook (p : Product) : Product :=
  if p.stock = 0 then { p with status := .outOfStock }
  else if p.stock ≤ p.lowStockThreshold then { p with status := .lowStock }
  else { p with status := .inStock }

/-- Mongoose Product.findById. -/
def findProduct (db : Db) (pid : Nat) : Option Product :=
  db.products.find? (fun p => p.id == pid)

/-- Mongoose product.save(): run the pre-save hook, then persist the document
over the stored copy with the same id.  Returns the updated state and
the saved document. -/
def saveProduct (db : Db) (p : Product) : Db × Product :=
  let saved := applyPreSaveHook p
  ({ db with products := db.products.map fun q => if q.id == p.id then saved else q },
   saved)

/-- Notification_Service.sendNotification (notification.controller.js):
create one Notification row. -/
def sendNotification (db : Db) (recipientId : Nat) (message : String)
    (type : NotificationType) (senderId : Option Nat) (productId : Option Nat) :
    Db × Notification :=
  let n : Notification :=
    { id := db.nextId, recipient := recipientId, sender := senderId,
      message := message, type := type, relatedProduct := productId, isRead := false }
  ({ db with notifications := db.notifications ++ [n], nextId := db.nextId + 1 }, n)

/-- The batch of Notification rows created by fanning one message out to
`recipients` in order, when the fresh-id counter starts at `startId`. -/
def notifBatch (startId : Nat) (recipients : List Nat) (message : String)
    (type : NotificationType) (senderId : Option Nat) (productId : Option Nat) :
    List Notification :=
  match recipients with
  | [] => []
  | r :: rs =>
    { id := startId, recipient := r, sender := senderId, message := message,
      type := type, relatedProduct := productId, isRead := false } ::
      notifBatch (startId + 1) rs message type senderId productId

/-- Fan the same message out to every listed recipient, as in
Promise.all(recipients.map(r => sendNotification(r, ...))). -/
def sendToAll (db : Db) (recipients : List Nat) (message : String)
    (type : NotificationType) (senderId : Option Nat) (productId : Option Nat) : Db :=
  match recipients with
  | [] => db
  | r :: rs =>
      sendToAll (sendNotification db r message type senderId productId).1
        rs message type senderId productId

/-- Mongoose Transaction.create. -/
def createTransaction (db : Db) (product : Nat) (type : TxType) (quantity : Int)
    (reference : String) (performedBy : Nat) (previousStock newStock : Int)
    (status : TxStatus) : Db × Transaction :=
  let t : Transaction :=
    { id := db.nextId, product, type, quantity, reference, performedBy,
      previousStock, newStock, status }
  ({ db with transactions := db.transactions ++ [t], nextId := db.nextId + 1 }, t)

/-- The `data.product`/`data.transaction` payload returned by the stock
movement endpoints. -/
structure StockMovement where
  productId : Nat
  name : String
  sku : String
  previousStock : Int
  newStock : Int
  transactionId : Nat
  reference : String
deriving DecidableEq, Repr

/-- manager.controller.js stockIn (lines 11-91): validate, find the
product, add the quantity, save (triggering the status hook), append a
completed 'in' Transaction, then notify every clerk. -/
def stockIn (db : Db) (userId now : Nat) (productId : Option Nat)
    (quantity : Option Int) (reference : Option String) :
    Db × Except ApiError StockMovement :=
  match productId, quantity with
  | some pid, some q =>
    if q ≤ 0 then (db, .error (.validation "Product ID and positive quantity are required"))
    else
      match findProduct db pid with
      | none => (db, .error (.notFound "Product not found"))
      | some product =>
        let previousStock := product.stock
        let newStock := previousStock + q
        let db1 := (saveProduct db { product with stock := newStock }).1
        let step2 := createTransaction db1 pid .tIn q
          (reference.getD ("STOCK-IN-" ++ toString now)) userId previousStock newStock
          .completed
        let clerks := step2.1.users.filter (fun u => u.role == .clerk)
        let db3 := sendToAll step2.1 (clerks.map (fun u => u.id))
          (product.name ++ " restocked successfully. New stock: " ++ toString newStock
            ++ " units (" ++ toString q ++ " added). SKU: " ++ product.sku)
          .restock (some userId) (some pid)
        (db3, .ok { productId := pid, name := product.name, sku := product.sku,
                    previousStock, newStock, transactionId := step2.2.id,
                    reference := step2.2.reference })
  | _, _ => (db, .error (.validation "Product ID and positive quantity are required"))

/-- manager.controller.js stockOut (lines 98-170): validate, find the
product, fail with the insufficient-stock payload when stock < quantity,
else subtract, save, and append a completed 'out' Transaction. -/
def stockOut (db : Db) (userId now : Nat) (productId : Option Nat)
    (quantity : Option Int) (reference : Option String) :
    Db × Except ApiError StockMovement :=
  match productId, quantity with
  | some pid, some q =>
    if q ≤ 0 then (db, .error (.validation "Product ID and positive quantity are required"))
    else
      match findProduct db pid with
      | none => (db, .error (.notFound "Product not found"))
      | some product =>
        let previousStock := product.stock
        if previousStock < q then
          (db, .error (.insufficientStock previousStock q))
        else
          let newStock := previousStock - q
          let db1 := (saveProduct db { product with stock := newStock }).1
          let step2 := createTransaction db1 pid .tOut q
            (reference.getD ("STOCK-OUT-" ++ toString now)) userId previousStock newStock
            .completed
          (step2.1, .ok { productId := pid, name := product.name, sku := product.sku,
                          previousStock, newStock, transactionId := step2.2.id,
                          reference := step2.2.reference })
  | _, _ => (db, .error (.validation "Product ID and positive quantity are required"))

/-- The per-product check sequence of createNewAudit
(auditor.controller.js lines 73-111): four independent checks, each
pushing at most one finding, in source order.  The JS price guard
`!product.price || product.price <= 0` is `price ≤ 0` over `Int`
(the falsy `0` is subsumed by `≤ 0`; a missing price defaults to 0 in
the schema). -/
def auditProduct (p : Product) : List Finding :=
  (if p.stock < 0 then
    [{ type := .negativeStock,
       message := "Negative stock: " ++ toString p.stock,
       severity := .high }] else []) ++
  (if p.stock = 0 ∧ p.status ≠ .outOfStock then
    [{ type := .statusMismatch,
       message := "Stock is 0 but status is " ++ p.status.show,
       severity := .medium }] else []) ++
  (if 0 < p.stock ∧ p.stock ≤ p.lowStockThreshold ∧
      p.status ≠ .lowStock ∧ p.status ≠ .outOfStock then
    [{ type := .lowStockMismatch,
       message := "Stock (" ++ toString p.stock ++ ") is below threshold (" ++
         toString p.lowStockThreshold ++ ") but status is " ++ p.status.show,
       severity := .low }] else []) ++
  (if p.price ≤ 0 then
    [{ type := .invalidPrice,
       message := "Invalid or missing price: " ++ toString p.price,
       severity := .medium }] else [])

/-- The auditResults entry pushed for a product when it has at least one
discrepancy (createNewAudit lines 112-122). -/
def auditEntry (p : Product) : Option AuditResult :=
  let ds := auditProduct p
  if ds.isEmpty then none
  else some { productId := p.id, name := p.name, sku := p.sku,
              currentStock := p.stock, status := p.status, discrepancies := ds }

/-- The response payload of POST /auditor/auditInventory. -/
structure AuditSummary where
  auditId : Nat
  totalDiscrepancies : Nat
  high : Nat
  medium : Nat
  low : Nat
  auditResults : List AuditResult
deriving DecidableEq, Repr

/-- auditor.controller.js createNewAudit (lines 64-167): run the four
checks over every product, persist an 'in-progress' Audit holding the
grouped findings, and report the severity breakdown. -/
def createNewAudit (db : Db) (userId now : Nat) : Db × Except ApiError AuditSummary :=
  let auditResults := db.products.filterMap auditEntry
  let discrepancies := db.products.flatMap auditProduct
  let newAudit : Audit :=
    { id := db.nextId, title := "Inventory Audit - " ++ toString now, date := now,
      status := .inProgress, discrepancies := discrepancies.length,
      discrepancyDetails := auditResults, createdBy := userId,
      notes := "Audit started by auditor" }
  ({ db with audits := db.audits ++ [newAudit], nextId := db.nextId + 1 },
   .ok { auditId := newAudit.id,
         totalDiscrepancies := discrepancies.length,
         high := (discrepancies.filter (fun d => d.severity == .high)).length,
         medium := (discrepancies.filter (fun d => d.severity == .medium)).length,
         low := (discrepancies.filter (fun d => d.severity == .low)).length,
         auditResults := auditResults })

/-- auditor.controller.js completeAudit (lines 285-319): 404 when the id
does not resolve, 400 when the audit is already completed, else flip the
status to completed and save, recomputing nothing. -/
def completeAudit (db : Db) (auditId : Nat) : Db × Except ApiError Audit :=
  match db.audits.find? (fun a => a.id == auditId) with
  | none => (db, .error (.notFound "Audit not found"))
  | some audit =>
    if audit.status == .completed then
      (db, .error (.alreadyCompleted "Audit is already completed"))
    else
      let done := { audit with status := AuditStatus.completed }
      ({ db with audits := db.audits.map fun b => if b.id == audit.id then done else b },
       .ok done)

/-- The summary block of the 'lowStock' report. -/
structure LowStockReport where
  totalLowStockItems : Nat
  criticalItems : Nat
  warningItems : Nat
  products : List Product
deriving DecidableEq, Repr

/-- The `case 'lowStock'` body of generateReport (manager.controller.js
lines 329-358).  `Product.find({}).sort({stock: 1})` orders by ascending
stock before filtering; the counts and the set of returned products are
order-independent, so the embedding keeps insertion order. -/
def generateLowStockReport (db : Db) : LowStockReport :=
  let lowStockProducts := db.products.filter (fun p => p.stock ≤ p.lowStockThreshold)
  { totalLowStockItems := lowStockProducts.length,
    criticalItems := (lowStockProducts.filter (fun p => p.stock = 0)).length,
    warningItems := (lowStockProducts.filter
      (fun p => 0 < p.stock ∧ p.stock ≤ p.lowStockThreshold)).length,
    products := lowStockProducts }

/-- The response payload of POST /clerk/reorder. -/
structure ReorderData where
  productId : Nat
  notificationsSent : Nat
deriving DecidableEq, Repr

/-- clerk.controller.js requestReorder (lines 170-234): validate, find
the product, then send one 'reorder' notification to every user with
role manager. -/
def requestReorder (db : Db) (clerkId : Nat) (productId : Option Nat) :
    Db × Except ApiError ReorderData :=
  match productId with
  | none => (db, .error (.validation "Product ID is required"))
  | some pid =>
    match findProduct db pid with
    | none => (db, .error (.notFound "Product not found"))
    | some product =>
      let managers := db.users.filter (fun u => u.role == .manager)
      let db1 := sendToAll db (managers.map fun u => u.id)
        ("Reorder request for " ++ product.name ++ " (current stock: " ++
          toString product.stock ++ " units). SKU: " ++ product.sku)
        .reorder (some clerkId) (some pid)
      (db1, .ok { productId := pid, notificationsSent := managers.length })

/-- The `['pending', 'completed', 'rejected'].includes(status)` guard of
updateOrderStatus, combined with decoding into the status enum. -/
def parseTxStatus (s : String) : Option TxStatus :=
  if s = "pending" then some .pending
  else if s = "completed" then some .completed
  else if s = "rejected" then some .rejected
  else none

/-- clerk.controller.js updateOrderStatus (lines 117-163): reject any
target status outside {pending, completed, rejected} with a 400 and no
write, else `findByIdAndUpdate(id, {status})` — only the status field of
the stored transaction changes. -/
def updateOrderStatus (db : Db) (orderId : Nat) (status : Option String) :
    Db × Except ApiError Transaction :=
  match status.bind parseTxStatus with
  | none => (db, .error (.validation "Invalid status. Must be: pending, completed, or rejected"))
  | some st =>
    match db.transactions.find? (fun t => t.id == orderId) with
    | none => (db, .error (.notFound "Order not found"))
    | some t =>
      let updated := { t with status := st }
      ({ db with transactions :=
          db.transactions.map fun u => if u.id == orderId then updated else u },
       .ok updated)

/-- The authenticated caller: either the hardcoded admin sentinel
('admin-hardcoded', distinct from every real user id) or a real user. -/
inductive CallerId where
  | admin
  | user (uid : Nat)
deriving DecidableEq, Repr

/-- Notification_Service.markAsRead: `findByIdAndUpdate(id, {isRead: true})`,
returning none when the id does not resolve. -/
def serviceMarkAsRead (db : Db) (nid : Nat) : Db × Option Notification :=
  match db.notifications.find? (fun n => n.id == nid) with
  | none => (db, none)
  | some n =>
    let updated := { n with isRead := true }
    ({ db with notifications :=
        db.notifications.map fun m => if m.id == nid then updated else m },
     some updated)

/-- notification.controller.js markAsRead (lines 240-275): 404 when the
notification does not exist; 403 when the caller is not the admin
sentinel and is not the recipient; otherwise flip isRead via the
service. -/
def markAsRead (db : Db) (caller : CallerId) (nid : Nat) :
    Db × Except ApiError (Option Notification) :=
  match db.notifications.find? (fun n => n.id == nid) with
  | none => (db, .error (.notFound "Notification not found"))
  | some n =>
    match caller with
    | .admin =>
      let r := serviceMarkAsRead db nid
      (r.1, .ok r.2)
    | .user uid =>
      if n.recipient == uid then
        let r := serviceMarkAsRead db nid
        (r.1, .ok r.2)
      else
        (db, .error (.forbidden "You are not authorized to mark this notification as read"))

/-- A sample catalogue entry used to instantiate the stock-ledger theorems. -/
def sampleWidget : Product :=
  { id := 1, name := "Widget", sku := "SKU-1", category := "tools",
    stock := 5, price := 3, lowStockThreshold := 10, status := .lowStock }

/-- A one-product database used to instantiate the stockIn theorem. -/
def c2db : Db :=
  { products := [sampleWidget], transactions := [], audits := [],
    notifications := [], users := [], nextId := 2 }

/-- A one-product database used to instantiate the stockOut theorem. -/
def c3db : Db :=
  { products := [sampleWidget], transactions := [], audits := [],
    notifications := [], users := [], nextId := 2 }

/-- An in-progress audit with one recorded finding, used to instantiate
the completeAudit theorem. -/
def c4audit : Audit :=
  { id := 3, title := "Inventory Audit - 11", date := 11, status := .inProgress,
    discrepancies := 1,
    discrepancyDetails :=
      [{ productId := 1, name := "Widget", sku := "SKU-1", currentStock := 5,
         status := .lowStock,
         discrepancies := [{ type := .invalidPrice,
                             message := "Invalid or missing price: 0",
                             severity := .medium }] }],
    createdBy := 9, notes := "Audit started by auditor" }

/-- A database holding only `c4audit`. -/
def c4db : Db :=
  { products := [], transactions := [], audits := [c4audit], notifications := [],
    users := [], nextId := 4 }

/-- Zero stock, in-stock status and the schema-default price 0: the
configuration refuting the single-finding reading of the audit claim. -/
def c5prod : Product :=
  { id := 1, name := "Gadget", sku := "SKU-5", category := "tools",
    stock := 0, price := 0, lowStockThreshold := 10, status := .inStock }

/-- A database holding only `c5prod`. -/
def c5db : Db :=
  { products := [c5prod], transactions := [], audits := [], notifications := [],
    users := [], nextId := 1 }

/-- Zero stock, in-stock status, positive price. -/
def c5good : Product :=
  { id := 2, name := "Gizmo", sku := "SKU-6", category := "tools",
    stock := 0, price := 4, lowStockThreshold := 10, status := .inStock }

/-- A database holding only `c5good`. -/
def c5gooddb : Db :=
  { products := [c5good], transactions := [], audits := [], notifications := [],
    users := [], nextId := 1 }

/-- Positive stock below threshold with an in-stock status. -/
def c6prod : Product :=
  { id := 3, name := "Sprocket", sku := "SKU-7", category := "tools",
    stock := 3, price := 5, lowStockThreshold := 10, status := .inStock }

/-- Negative stock (possible via writes bypassing validation, which the
audit engine explicitly checks for): it is counted in the low-stock list
but in neither the critical nor the warning bucket. -/
def c7neg : Product :=
  { id := 4, name := "Cog", sku := "SKU-8", category := "tools",
    stock := -1, price := 5, lowStockThreshold := 10, status := .lowStock }

/-- A database holding only `c7neg`. -/
def c7db : Db :=
  { products := [c7neg], transactions := [], audits := [], notifications := [],
    users := [], nextId := 1 }

/-- A database whose products all have non-negative stock. -/
def c7okdb : Db :=
  { products :=
      [{ id := 5, name := "Bolt", sku := "SKU-9", category := "tools",
         stock := 0, price := 2, lowStockThreshold := 10, status := .outOfStock },
       { id := 6, name := "Nut", sku := "SKU-10", category := "tools",
         stock := 3, price := 2, lowStockThreshold := 10, status := .lowStock },
       { id := 7, name := "Washer", sku := "SKU-11", category := "tools",
         stock := 50, price := 2, lowStockThreshold := 10, status := .inStock }],
    transactions := [], audits := [], notifications := [], users := [], nextId := 1 }

/-- A database with three managers and one clerk, used to instantiate
the requestReorder theorem. -/
def c8db : Db :=
  { products := [sampleWidget], transactions := [], audits := [],
    notifications := [],
    users := [{ id := 21, fullName := "M One", email := "m1@x.test", role := .manager },
              { id := 22, fullName := "C One", email := "c1@x.test", role := .clerk },
              { id := 23, fullName := "M Two", email := "m2@x.test", role := .manager },
              { id := 24, fullName := "M Three", email := "m3@x.test", role := .manager }],
    nextId := 30 }

/-- A pending transaction used to instantiate the updateOrderStatus
theorem. -/
def c9tx : Transaction :=
  { id := 1, product := 1, type := .tOut, quantity := 2, reference := "REF-1",
    performedBy := 9, previousStock := 5, newStock := 3, status := .pending }

/-- A database holding only `c9tx`. -/
def c9db : Db :=
  { products := [], transactions := [c9tx], audits := [], notifications := [],
    users := [], nextId := 2 }

/-- A notification addressed to user 5, used to instantiate the
markAsRead theorem. -/
def c10notif : Notification :=
  { id := 1, recipient := 5, sender := some 9, message := "Widget restocked",
    type := .restock, relatedProduct := some 1, isRead := false }

/-- A database holding only `c10notif`. -/
def c10db : Db :=
  { products := [], transactions := [], audits := [], notifications := [c10notif],
    users := [], nextId := 2 }

/-- C1: after any save through the normal save path, the persisted status
equals `stock==0 ? out-of-stock : stock<=threshold ? low-stock : in-stock`,
regardless of the caller-supplied status; and every product in the
resulting state is either an untouched pre-existing document or the saved
document itself. -/
theorem save_derives_status (db : Db) (p : Product) (s : ProductStatus) :
    (saveProduct db { p with status := s }).2.status =
      (if p.stock = 0 then ProductStatus.outOfStock
       else if p.stock ≤ p.lowStockThreshold then ProductStatus.lowStock
       else ProductStatus.inStock) ∧
    ∀ q ∈ (saveProduct db { p with status := s }).1.products,
      q ∈ db.products ∨ q = (saveProduct db { p with status := s }).2 := by
  constructor
  · simp only [saveProduct, applyPreSaveHook]
    split
    · simp_all
    · split <;> simp_all
  · intro q hq
    simp only [saveProduct, List.mem_map] at hq
    obtain ⟨r, hr, hrq⟩ := hq
    by_cases h : r.id == p.id
    · right
      simp [h] at hrq
      simp [saveProduct, ← hrq]
    · left
      simp [h] at hrq
      rwa [← hrq]

/-- Concrete instantiation of `save_derives_status`: saving a stock-5,
threshold-10 product claimed as 'in-stock' persists it as 'low-stock'. -/
theorem save_derives_status_witness :
    (saveProduct c2db { sampleWidget with status := ProductStatus.inStock }).2.status =
      (if sampleWidget.stock = 0 then ProductStatus.outOfStock
       else if sampleWidget.stock ≤ sampleWidget.lowStockThreshold then ProductStatus.lowStock
       else ProductStatus.inStock) ∧
    ∀ q ∈ (saveProduct c2db { sampleWidget with status := ProductStatus.inStock }).1.products,
      q ∈ c2db.products ∨
        q = (saveProduct c2db { sampleWidget with status := ProductStatus.inStock }).2 :=
  save_derives_status c2db sampleWidget ProductStatus.inStock

theorem applyPreSaveHook_stock (p : Product) : (applyPreSaveHook p).stock = p.stock := by
  unfold applyPreSaveHook
  split
  · rfl
  · split <;> rfl

theorem applyPreSaveHook_id (p : Product) : (applyPreSaveHook p).id = p.id := by
  unfold applyPreSaveHook
  split
  · rfl
  · split <;> rfl

theorem find?_replace (l : List Product) (pid : Nat) (p c : Product)
    (hfind : l.find? (fun r => r.id == pid) = some p) (hc : c.id = p.id) :
    (l.map fun r => if r.id == p.id then c else r).find? (fun r => r.id == pid) =
      some c := by
  have hp : p.id = pid := by simpa using List.find?_some hfind
  have h2 : (c.id == pid) = true := by simp [hc, hp]
  induction l with
  | nil => simp at hfind
  | cons a l ih =>
    by_cases h : (a.id == pid) = true
    · have hstep : List.find? (fun r => r.id == pid) (a :: l) = some a :=
        List.find?_cons_of_pos _ h
      rw [hstep] at hfind
      injection hfind with hap
      subst hap
      have hhead : (if a.id == a.id then c else a) = c := by simp
      simp only [List.map_cons, hhead]
      exact List.find?_cons_of_pos _ h2
    · have hne : ¬ (a.id == p.id) = true := by
        intro hcon
        apply h
        simp only [beq_iff_eq] at hcon ⊢
        omega
      have hstep : List.find? (fun r => r.id == pid) (a :: l) =
          List.find? (fun r => r.id == pid) l :=
        List.find?_cons_of_neg _ (by simpa using h)
      rw [hstep] at hfind
      have hhead : (if a.id == p.id then c else a) = a := by
        rw [if_neg hne]
      have hstep2 : List.find? (fun r => r.id == pid)
          (a :: (l.map fun r => if r.id == p.id then c else r)) =
          (l.map fun r => if r.id == p.id then c else r).find? (fun r => r.id == pid) :=
        List.find?_cons_of_neg _ (by simpa using h)
      simp only [List.map_cons, hhead]
      rw [hstep2]
      exact ih hfind

theorem sendToAll_products (recipients : List Nat) (db : Db) (message : String)
    (t : NotificationType) (s pr : Option Nat) :
    (sendToAll db recipients message t s pr).products = db.products := by
  induction recipients generalizing db with
  | nil => rfl
  | cons r rs ih => simp [sendToAll, sendNotification, ih]

theorem sendToAll_transactions (recipients : List Nat) (db : Db) (message : String)
    (t : NotificationType) (s pr : Option Nat) :
    (sendToAll db recipients message t s pr).transactions = db.transactions := by
  induction recipients generalizing db with
  | nil => rfl
  | cons r rs ih => simp [sendToAll, sendNotification, ih]

theorem sendToAll_notifications (recipients : List Nat) (db : Db) (message : String)
    (t : NotificationType) (s pr : Option Nat) :
    (sendToAll db recipients message t s pr).notifications =
      db.notifications ++ notifBatch db.nextId recipients message t s pr := by
  induction recipients generalizing db with
  | nil => simp [sendToAll, notifBatch]
  | cons r rs ih => simp [sendToAll, notifBatch, ih, sendNotification]

theorem notifBatch_map_recipient (startId : Nat) (recipients : List Nat)
    (message : String) (t : NotificationType) (s pr : Option Nat) :
    (notifBatch startId recipients message t s pr).map (fun n => n.recipient) =
      recipients := by
  induction recipients generalizing startId with
  | nil => rfl
  | cons r rs ih => simp [notifBatch, ih]

theorem notifBatch_type (startId : Nat) (recipients : List Nat)
    (message : String) (t : NotificationType) (s pr : Option Nat) :
    ∀ n ∈ notifBatch startId recipients message t s pr, n.type = t := by
  induction recipients generalizing startId with
  | nil => simp [notifBatch]
  | cons r rs ih =>
    intro n hn
    simp only [notifBatch, List.mem_cons] at hn
    rcases hn with h | h
    · rw [h]
    · exact ih _ n h

/-- C2: a successful stockIn on an existing product adds the quantity to
the stock read at the start of the operation and appends exactly one
completed 'in' Transaction whose previousStock/newStock record exactly
that stock and its increment. -/
theorem stockIn_spec (db : Db) (uid now pid : Nat) (q : Int)
    (ref : Option String) (p : Product)
    (hfind : findProduct db pid = some p) (hq : 0 < q) :
    ∃ db' out,
      stockIn db uid now (some pid) (some q) ref = (db', Except.ok out) ∧
      (∃ p', findProduct db' pid = some p' ∧ p'.stock = p.stock + q) ∧
      out.previousStock = p.stock ∧ out.newStock = p.stock + q ∧
      ∃ t, db'.transactions = db.transactions ++ [t] ∧
        t.type = TxType.tIn ∧ t.status = TxStatus.completed ∧
        t.quantity = q ∧ t.previousStock = p.stock ∧ t.newStock = p.stock + q := by
  have hq' : ¬ q ≤ 0 := not_le.mpr hq
  simp only [stockIn, if_neg hq', hfind]
  refine ⟨_, _, rfl, ?_, rfl, rfl, ?_⟩
  · simp only [findProduct, sendToAll_products, createTransaction, saveProduct]
    refine ⟨applyPreSaveHook { p with stock := p.stock + q }, ?_, ?_⟩
    · exact find?_replace db.products pid p _ hfind (applyPreSaveHook_id _)
    · rw [applyPreSaveHook_stock]
  · refine ⟨⟨(saveProduct db { p with stock := p.stock + q }).1.nextId, pid, .tIn, q,
      ref.getD ("STOCK-IN-" ++ toString now), uid, p.stock, p.stock + q, .completed⟩,
      ?_, rfl, rfl, rfl, rfl, rfl⟩
    simp only [sendToAll_transactions, createTransaction, saveProduct]

/-- Concrete instantiation of `stockIn_spec`: stock 5, quantity 20. -/
theorem stockIn_spec_witness :
    findProduct c2db 1 = some sampleWidget ∧ (0 : Int) < 20 ∧
    (∃ db' out,
      stockIn c2db 7 0 (some 1) (some 20) none = (db', Except.ok out) ∧
      (∃ p', findProduct db' 1 = some p' ∧ p'.stock = sampleWidget.stock + 20) ∧
      out.previousStock = sampleWidget.stock ∧
      out.newStock = sampleWidget.stock + 20 ∧
      ∃ t, db'.transactions = c2db.transactions ++ [t] ∧
        t.type = TxType.tIn ∧ t.status = TxStatus.completed ∧
        t.quantity = 20 ∧ t.previousStock = sampleWidget.stock ∧
        t.newStock = sampleWidget.stock + 20) :=
  ⟨rfl, by decide, stockIn_spec c2db 7 0 1 20 none sampleWidget rfl (by decide)⟩

/-- C3: stockOut with a positive quantity exceeding the available stock
returns the insufficient-stock error carrying `{available, requested}`
and leaves the whole database state unchanged (so the product's stock
and status are untouched and no Transaction is appended). -/
theorem stockOut_insufficient (db : Db) (uid now pid : Nat) (q : Int)
    (ref : Option String) (p : Product)
    (hfind : findProduct db pid = some p) (hq : 0 < q) (hins : p.stock < q) :
    stockOut db uid now (some pid) (some q) ref =
      (db, Except.error (ApiError.insufficientStock p.stock q)) := by
  have hq' : ¬ q ≤ 0 := not_le.mpr hq
  simp only [stockOut, if_neg hq', hfind, if_pos hins]

/-- Concrete instantiation of `stockOut_insufficient`: stock 5, request 9. -/
theorem stockOut_insufficient_witness :
    findProduct c3db 1 = some sampleWidget ∧ (0 : Int) < 9 ∧
    sampleWidget.stock < 9 ∧
    stockOut c3db 7 0 (some 1) (some 9) none =
      (c3db, Except.error (ApiError.insufficientStock 5 9)) :=
  ⟨rfl, by decide, by decide,
    stockOut_insufficient c3db 7 0 1 9 none sampleWidget rfl (by decide) (by decide)⟩

/-- C4: completeAudit fails with the already-completed (conflict) error
and mutates nothing when the audit is already completed; otherwise it
flips only the status to completed, leaving discrepancies and
discrepancyDetails (and all other fields) unchanged. -/
theorem completeAudit_spec (db : Db) (aid : Nat) (a : Audit)
    (hfind : db.audits.find? (fun b => b.id == aid) = some a) :
    (a.status = AuditStatus.completed →
      completeAudit db aid =
        (db, Except.error (ApiError.alreadyCompleted "Audit is already completed"))) ∧
    (a.status ≠ AuditStatus.completed →
      completeAudit db aid =
        ({ db with audits := db.audits.map fun b =>
            if b.id == a.id then { a with status := AuditStatus.completed } else b },
         Except.ok { a with status := AuditStatus.completed }) ∧
      ({ a with status := AuditStatus.completed }).discrepancies = a.discrepancies ∧
      ({ a with status := AuditStatus.completed }).discrepancyDetails =
        a.discrepancyDetails) := by
  constructor
  · intro h
    simp only [completeAudit, hfind]
    rw [if_pos (by simp [h])]
  · intro h
    refine ⟨?_, rfl, rfl⟩
    simp only [completeAudit, hfind]
    rw [if_neg (by simp [h])]

/-- Concrete instantiation of `completeAudit_spec` on an in-progress
audit. -/
theorem completeAudit_spec_witness :
    completeAudit c4db 3 =
      ({ c4db with audits := c4db.audits.map fun b =>
          if b.id == c4audit.id then { c4audit with status := AuditStatus.completed } else b },
       Except.ok { c4audit with status := AuditStatus.completed }) :=
  (((completeAudit_spec c4db 3 c4audit rfl).2) (by decide)).1

/-- C5 as stated is refuted: a product with stock 0 and status
'in-stock' but price 0 (the schema default) receives two findings from
the audit run — status_mismatch and invalid_price — not exactly one. -/
theorem createNewAudit_two_findings_cex :
    c5prod.stock = 0 ∧ c5prod.status = ProductStatus.inStock ∧
    ((createNewAudit c5db 9 0).1.audits.map fun a =>
      a.discrepancyDetails.map fun r =>
        (r.productId, r.discrepancies.map fun f => (f.type, f.severity))) =
      [[(1, [(FindingType.statusMismatch, Severity.medium),
             (FindingType.invalidPrice, Severity.medium)])]] := by
  refine ⟨rfl, rfl, ?_⟩
  decide

/-- C5 (amended with positive price): for a product with stock 0,
status 'in-stock' and price > 0, the audit run yields exactly one
finding for that product, of type status_mismatch with severity medium,
and the persisted audit record carries that product's entry. -/
theorem createNewAudit_status_mismatch (db : Db) (uid now : Nat) (p : Product)
    (hp : p ∈ db.products) (hstock : p.stock = 0)
    (hstatus : p.status = ProductStatus.inStock) (hprice : 0 < p.price) :
    (auditProduct p).map (fun f => (f.type, f.severity)) =
      [(FindingType.statusMismatch, Severity.medium)] ∧
    ∃ aud, (createNewAudit db uid now).1.audits = db.audits ++ [aud] ∧
      ({ productId := p.id, name := p.name, sku := p.sku, currentStock := p.stock,
         status := p.status, discrepancies := auditProduct p } : AuditResult)
        ∈ aud.discrepancyDetails := by
  have h4 : ¬ p.price ≤ 0 := not_le.mpr hprice
  have hlist : (auditProduct p).map (fun f => (f.type, f.severity)) =
      [(FindingType.statusMismatch, Severity.medium)] := by
    simp [auditProduct, hstock, hstatus, h4]
  refine ⟨hlist, _, rfl, ?_⟩
  have hne : (auditProduct p).isEmpty = false := by
    cases hh : auditProduct p with
    | nil => rw [hh] at hlist; simp at hlist
    | cons a l => rfl
  exact List.mem_filterMap.mpr ⟨p, hp, by simp [auditEntry, hne]⟩

/-- Concrete instantiation of `createNewAudit_status_mismatch`. -/
theorem createNewAudit_status_mismatch_witness :
    c5good ∈ c5gooddb.products ∧ c5good.stock = 0 ∧
    c5good.status = ProductStatus.inStock ∧ 0 < c5good.price ∧
    ((auditProduct c5good).map (fun f => (f.type, f.severity)) =
      [(FindingType.statusMismatch, Severity.medium)] ∧
     ∃ aud, (createNewAudit c5gooddb 9 0).1.audits = c5gooddb.audits ++ [aud] ∧
       ({ productId := c5good.id, name := c5good.name, sku := c5good.sku,
          currentStock := c5good.stock, status := c5good.status,
          discrepancies := auditProduct c5good } : AuditResult)
         ∈ aud.discrepancyDetails) :=
  ⟨by decide, by decide, by decide, by decide,
    createNewAudit_status_mismatch c5gooddb 9 0 c5good (by decide) (by decide)
      (by decide) (by decide)⟩

/-- C6: the audit run records a severity-low low_stock_mismatch (the
'threshold mismatch') finding for a product exactly when
0 < stock ≤ lowStockThreshold and the status is neither 'low-stock' nor
'out-of-stock' — and then it records exactly one such finding. -/
theorem auditProduct_low_stock_mismatch_iff (p : Product) :
    ((auditProduct p).countP (fun f => f.type == FindingType.lowStockMismatch) =
      if 0 < p.stock ∧ p.stock ≤ p.lowStockThreshold ∧
         p.status ≠ ProductStatus.lowStock ∧ p.status ≠ ProductStatus.outOfStock
      then 1 else 0) ∧
    ∀ f ∈ auditProduct p, f.type = FindingType.lowStockMismatch →
      f.severity = Severity.low := by
  constructor
  · simp only [auditProduct, List.countP_append]
    split_ifs <;> simp_all [List.countP_cons, List.countP_nil]
  · intro f hf hft
    simp only [auditProduct, List.mem_append] at hf
    rcases hf with ((hf | hf) | hf) | hf <;>
      · split at hf <;> simp_all

/-- Concrete instantiation of `auditProduct_low_stock_mismatch_iff`:
stock 3 ≤ threshold 10 with status 'in-stock' yields one threshold
mismatch finding. -/
theorem auditProduct_low_stock_mismatch_witness :
    (auditProduct c6prod).countP (fun f => f.type == FindingType.lowStockMismatch) = 1 := by
  rw [(auditProduct_low_stock_mismatch_iff c6prod).1]
  decide

/-- Splitting a list of products with non-negative stock, all below their
threshold, into the zero-stock and positive-stock parts. -/
theorem low_length_split (m : List Product)
    (h : ∀ p ∈ m, 0 ≤ p.stock ∧ p.stock ≤ p.lowStockThreshold) :
    m.length = (m.filter (fun p => p.stock = 0)).length +
      (m.filter (fun p => 0 < p.stock ∧ p.stock ≤ p.lowStockThreshold)).length := by
  induction m with
  | nil => rfl
  | cons a m ih =>
    obtain ⟨ha0, hat⟩ := h a (List.mem_cons_self a m)
    have hm : ∀ p ∈ m, 0 ≤ p.stock ∧ p.stock ≤ p.lowStockThreshold :=
      fun p hp => h p (List.mem_cons_of_mem a hp)
    by_cases h0 : a.stock = 0
    · have hnp : ¬ (0 < a.stock ∧ a.stock ≤ a.lowStockThreshold) := by
        rintro ⟨h1, -⟩
        rw [h0] at h1
        exact absurd h1 (by decide)
      simp only [List.filter_cons, List.length_cons, ih hm]
      rw [if_pos (by simp [h0]), if_neg (by simpa using hnp)]
      simp only [List.length_cons]
      omega
    · have hpos : 0 < a.stock := lt_of_le_of_ne ha0 (Ne.symm h0)
      simp only [List.filter_cons, List.length_cons, ih hm]
      rw [if_neg (by simpa using h0), if_pos (by simp [hpos, hat])]
      simp only [List.length_cons]
      omega

/-- C7 as stated is refuted: with a negative-stock product (stock -1 ≤
threshold) the low-stock report counts it in totalLowStockItems but in
neither criticalItems nor warningItems, so the total is not their sum. -/
theorem generateLowStockReport_cex :
    (generateLowStockReport c7db).totalLowStockItems = 1 ∧
    (generateLowStockReport c7db).criticalItems = 0 ∧
    (generateLowStockReport c7db).warningItems = 0 := by
  decide

/-- C7 (amended): the lowStock report returns exactly the products with
stock ≤ lowStockThreshold, criticalItems counts those with stock = 0,
warningItems those with 0 < stock ≤ threshold, and — provided every
product's stock is non-negative — the total equals their sum. -/
theorem generateLowStockReport_spec (db : Db) :
    (generateLowStockReport db).products =
      db.products.filter (fun p => p.stock ≤ p.lowStockThreshold) ∧
    (generateLowStockReport db).totalLowStockItems =
      (db.products.filter (fun p => p.stock ≤ p.lowStockThreshold)).length ∧
    (generateLowStockReport db).criticalItems =
      ((db.products.filter (fun p => p.stock ≤ p.lowStockThreshold)).filter
        (fun p => p.stock = 0)).length ∧
    (generateLowStockReport db).warningItems =
      ((db.products.filter (fun p => p.stock ≤ p.lowStockThreshold)).filter
        (fun p => 0 < p.stock ∧ p.stock ≤ p.lowStockThreshold)).length ∧
    ((∀ p ∈ db.products, 0 ≤ p.stock) →
      (generateLowStockReport db).totalLowStockItems =
        (generateLowStockReport db).criticalItems +
          (generateLowStockReport db).warningItems) := by
  refine ⟨rfl, rfl, rfl, rfl, ?_⟩
  intro h
  have hm : ∀ p ∈ db.products.filter (fun p => p.stock ≤ p.lowStockThreshold),
      0 ≤ p.stock ∧ p.stock ≤ p.lowStockThreshold := by
    intro p hp
    have hmem := List.mem_filter.1 hp
    exact ⟨h p hmem.1, by simpa using hmem.2⟩
  exact low_length_split _ hm

/-- Concrete instantiation of `generateLowStockReport_spec` on a
database with non-negative stocks. -/
theorem generateLowStockReport_spec_witness :
    (∀ p ∈ c7okdb.products, 0 ≤ p.stock) ∧
    (generateLowStockReport c7okdb).totalLowStockItems =
      (generateLowStockReport c7okdb).criticalItems +
        (generateLowStockReport c7okdb).warningItems :=
  ⟨by decide, (generateLowStockReport_spec c7okdb).2.2.2.2 (by decide)⟩

theorem notifBatch_length (startId : Nat) (recipients : List Nat)
    (message : String) (t : NotificationType) (s pr : Option Nat) :
    (notifBatch startId recipients message t s pr).length = recipients.length := by
  induction recipients generalizing startId with
  | nil => rfl
  | cons r rs ih => simp [notifBatch, ih]

/-- C8: requestReorder on an existing product appends exactly one
'reorder' notification per manager — the appended batch's recipients are
exactly the manager ids in order (hence one row per distinct manager
when user ids are distinct) and no row targets any other user. -/
theorem requestReorder_spec (db : Db) (cid pid : Nat) (p : Product)
    (hfind : findProduct db pid = some p) :
    ∃ db' out L,
      requestReorder db cid (some pid) = (db', Except.ok out) ∧
      db'.notifications = db.notifications ++ L ∧
      L.map (fun n => n.recipient) =
        (db.users.filter (fun u => u.role == Role.manager)).map (fun u => u.id) ∧
      (∀ n ∈ L, n.type = NotificationType.reorder) ∧
      L.length = (db.users.filter (fun u => u.role == Role.manager)).length ∧
      out.notificationsSent =
        (db.users.filter (fun u => u.role == Role.manager)).length ∧
      ((db.users.map (fun u => u.id)).Nodup →
        (L.map (fun n => n.recipient)).Nodup) := by
  simp only [requestReorder, hfind]
  refine ⟨_, _,
    notifBatch db.nextId
      ((db.users.filter (fun u => u.role == Role.manager)).map fun u => u.id)
      ("Reorder request for " ++ p.name ++ " (current stock: " ++
        toString p.stock ++ " units). SKU: " ++ p.sku)
      NotificationType.reorder (some cid) (some pid),
    rfl, ?_, ?_, ?_, ?_, rfl, ?_⟩
  · exact sendToAll_notifications _ _ _ _ _ _
  · rw [notifBatch_map_recipient]
  · exact notifBatch_type _ _ _ _ _ _
  · rw [notifBatch_length, List.length_map]
  · intro hnd
    rw [notifBatch_map_recipient]
    exact hnd.sublist ((List.filter_sublist db.users).map fun u => u.id)

/-- Concrete instantiation of `requestReorder_spec` on a database with
three managers and one clerk. -/
theorem requestReorder_spec_witness :
    findProduct c8db 1 = some sampleWidget ∧
    (∃ db' out L,
      requestReorder c8db 22 (some 1) = (db', Except.ok out) ∧
      db'.notifications = c8db.notifications ++ L ∧
      L.map (fun n => n.recipient) =
        (c8db.users.filter (fun u => u.role == Role.manager)).map (fun u => u.id) ∧
      (∀ n ∈ L, n.type = NotificationType.reorder) ∧
      L.length = (c8db.users.filter (fun u => u.role == Role.manager)).length ∧
      out.notificationsSent =
        (c8db.users.filter (fun u => u.role == Role.manager)).length ∧
      ((c8db.users.map (fun u => u.id)).Nodup →
        (L.map (fun n => n.recipient)).Nodup)) :=
  ⟨rfl, requestReorder_spec c8db 22 1 sampleWidget rfl⟩

/-- C9: updateOrderStatus with a target status in {pending, completed,
rejected} rewrites only the stored transaction's status field, every
other field unchanged; any other target status string is rejected with a
validation error and the state is untouched. -/
theorem updateOrderStatus_spec (db : Db) (tid : Nat) (t : Transaction)
    (hfind : db.transactions.find? (fun u => u.id == tid) = some t) :
    (∀ s st, parseTxStatus s = some st →
      updateOrderStatus db tid (some s) =
        ({ db with transactions := db.transactions.map fun u =>
            if u.id == tid then { t with status := st } else u },
         Except.ok { t with status := st })) ∧
    (∀ st : TxStatus,
      ({ t with status := st } : Transaction).product = t.product ∧
      ({ t with status := st } : Transaction).type = t.type ∧
      ({ t with status := st } : Transaction).quantity = t.quantity ∧
      ({ t with status := st } : Transaction).reference = t.reference ∧
      ({ t with status := st } : Transaction).performedBy = t.performedBy ∧
      ({ t with status := st } : Transaction).previousStock = t.previousStock ∧
      ({ t with status := st } : Transaction).newStock = t.newStock) ∧
    (∀ s, parseTxStatus s = none →
      updateOrderStatus db tid (some s) =
        (db, Except.error (ApiError.validation
          "Invalid status. Must be: pending, completed, or rejected"))) ∧
    (∀ s, parseTxStatus s = none ↔
      s ∉ (["pending", "completed", "rejected"] : List String)) := by
  refine ⟨?_, ?_, ?_, ?_⟩
  · intro s st hs
    simp only [updateOrderStatus, Option.bind, hs, hfind]
  · intro st
    exact ⟨rfl, rfl, rfl, rfl, rfl, rfl, rfl⟩
  · intro s hs
    simp only [updateOrderStatus, Option.bind, hs]
  · intro s
    simp only [parseTxStatus, List.mem_cons, List.not_mem_nil]
    split_ifs <;> simp_all

/-- Concrete instantiation of `updateOrderStatus_spec`: rejecting a
pending order. -/
theorem updateOrderStatus_spec_witness :
    c9db.transactions.find? (fun u => u.id == 1) = some c9tx ∧
    parseTxStatus "rejected" = some TxStatus.rejected ∧
    updateOrderStatus c9db 1 (some "rejected") =
      ({ c9db with transactions := c9db.transactions.map fun u =>
          if u.id == 1 then { c9tx with status := TxStatus.rejected } else u },
       Except.ok { c9tx with status := TxStatus.rejected }) :=
  ⟨rfl, rfl,
    (updateOrderStatus_spec c9db 1 c9tx rfl).1 "rejected" TxStatus.rejected rfl⟩

/-- C10: for an existing notification, a non-admin caller's markAsRead
succeeds — flipping only isRead to true — exactly when the caller is the
recipient; otherwise it fails with the 403 authorization error and the
state is unchanged; the admin sentinel may mark any notification. -/
theorem markAsRead_spec (db : Db) (nid : Nat) (n : Notification)
    (hfind : db.notifications.find? (fun m => m.id == nid) = some n) :
    (∀ c : Nat, n.recipient = c →
      markAsRead db (CallerId.user c) nid =
        ({ db with notifications := db.notifications.map fun m =>
            if m.id == nid then { n with isRead := true } else m },
         Except.ok (some { n with isRead := true }))) ∧
    (∀ c : Nat, n.recipient ≠ c →
      markAsRead db (CallerId.user c) nid =
        (db, Except.error (ApiError.forbidden
          "You are not authorized to mark this notification as read")) ∧
      (ApiError.forbidden
        "You are not authorized to mark this notification as read").httpStatus = 403) ∧
    markAsRead db CallerId.admin nid =
      ({ db with notifications := db.notifications.map fun m =>
          if m.id == nid then { n with isRead := true } else m },
       Except.ok (some { n with isRead := true })) := by
  refine ⟨?_, ?_, ?_⟩
  · intro c hc
    simp only [markAsRead, hfind, serviceMarkAsRead]
    rw [if_pos (by simp [hc])]
  · intro c hc
    refine ⟨?_, rfl⟩
    simp only [markAsRead, hfind]
    rw [if_neg (by simp [hc])]
  · simp only [markAsRead, hfind, serviceMarkAsRead]

/-- Concrete instantiation of `markAsRead_spec`: recipient 5 may mark
the notification, user 6 gets the 403 error. -/
theorem markAsRead_spec_witness :
    c10db.notifications.find? (fun m => m.id == 1) = some c10notif ∧
    markAsRead c10db (CallerId.user 5) 1 =
      ({ c10db with notifications := c10db.notifications.map fun m =>
          if m.id == 1 then { c10notif with isRead := true } else m },
       Except.ok (some { c10notif with isRead := true })) ∧
    markAsRead c10db (CallerId.user 6) 1 =
      (c10db, Except.error (ApiError.forbidden
        "You are not authorized to mark this notification as read")) :=
  ⟨rfl, (markAsRead_spec c10db 1 c10notif rfl).1 5 rfl,
    ((markAsRead_spec c10db 1 c10notif rfl).2.1 6 (by decide)).1⟩

end Inventra
